import Mathlib

/-!
Verification development for the `enphase_and_span` repository
(`virtual_critical_load` package: `__main__.py` and `enphase/enphase.py`).

The Python code is shallowly embedded: JSON values become an inductive type,
the inventory reducer `process_ensemble_inventory` becomes a function into
`Except`, and the stateful `Enphase` object together with its side effects
(network calls, the `enphase.config` file, the session cache) becomes explicit
state passing over an `Enphase` record and a `World` record that carries the
persisted file, the network oracles and an event trace.
-/

namespace VCL

/-- JSON-like values as produced by `json.loads`.  Numbers are modelled as
integers; the fields this program reads (`type`, `mains_oper_state`,
`percentFull`, token fields) are strings or integers in practice, and no claim
exercises fractional numbers. -/
inductive JValue where
  | null : JValue
  | bool (b : Bool) : JValue
  | num (n : Int) : JValue
  | str (s : String) : JValue
  | list (xs : List JValue) : JValue
  | obj (kvs : List (String × JValue)) : JValue

/-- Errors that `process_ensemble_inventory` can raise, named after the
reduction-layer taxonomy where the spec names the corresponding Python
exception: `missingDevice t` is the `StopIteration` escaping the
`next(item for item in data if item.get('type') == t)` call for device type
`t`, `noBatteries` is the `ZeroDivisionError` from averaging an empty list,
and `batteryFieldError` is the `TypeError`/`ValueError` from
`int(device.get("percentFull"))`.  The remaining constructors are the
untyped-Python errors of the corresponding operations on ill-typed values. -/
inductive PErr where
  | missingDevice (deviceType : String)
  | noBatteries
  | batteryFieldError
  | attributeError
  | typeError
  | indexError
deriving DecidableEq, Repr

/-- Python `d.get(k)`: on a dict returns the value or `None`; on any other
value raises `AttributeError`. -/
def jget (v : JValue) (k : String) : Except PErr JValue :=
  match v with
  | .obj kvs =>
    match kvs.lookup k with
    | some x => .ok x
    | none => .ok .null
  | _ => .error .attributeError

/-- Python `v[0]`: first element of a list (or first character of a string);
`IndexError` when empty, `TypeError` (or `KeyError`, not distinguished here)
on non-subscriptable or non-integer-keyed values. -/
def jindex0 (v : JValue) : Except PErr JValue :=
  match v with
  | .list [] => .error .indexError
  | .list (x :: _) => .ok x
  | .str s =>
    match s.data with
    | [] => .error .indexError
    | c :: _ => .ok (.str (String.mk [c]))
  | _ => .error .typeError

/-- Python `for x in v`: a list yields its elements, a dict its keys, a string
its characters (as one-character strings); other values raise `TypeError`. -/
def pyIter (v : JValue) : Except PErr (List JValue) :=
  match v with
  | .list xs => .ok xs
  | .obj kvs => .ok (kvs.map (fun kv => .str kv.fst))
  | .str s => .ok (s.data.map (fun c => .str (String.mk [c])))
  | _ => .error .typeError

/-- Digit run to its numeric value. -/
def digitsToNat (cs : List Char) : Nat :=
  cs.foldl (fun n c => n * 10 + (c.toNat - '0'.toNat)) 0

/-- Python `int(s)` on a string: surrounding whitespace is stripped, then an
optional sign followed by a nonempty digit run; anything else raises
`ValueError`. -/
def pyStrToInt? (s : String) : Option Int :=
  let cs := ((s.data.dropWhile Char.isWhitespace).reverse.dropWhile
    Char.isWhitespace).reverse
  match cs with
  | [] => none
  | c :: rest =>
    let p : Int × List Char :=
      if c = '-' then (-1, rest)
      else if c = '+' then (1, rest)
      else (1, c :: rest)
    if p.2 ≠ [] ∧ p.2.all Char.isDigit then
      some (p.1 * digitsToNat p.2)
    else none

/-- Python `int(v)` as used on `device.get("percentFull")`: parses strings,
keeps integers, converts booleans; `None`, lists and dicts raise.  The
failure is the spec's `BatteryFieldError` (the only place this conversion
occurs). -/
def pyInt (v : JValue) : Except PErr Int :=
  match v with
  | .num n => .ok n
  | .bool b => .ok (if b then 1 else 0)
  | .str s =>
    match pyStrToInt? s with
    | some n => .ok n
    | none => .error .batteryFieldError
  | _ => .error .batteryFieldError

/-- Python `v == t` for a string literal `t`: true exactly when `v` is that
string (equality between a string and any other type is `False`, no error). -/
def jeqStr (v : JValue) (t : String) : Bool :=
  match v with
  | .str s => s = t
  | _ => false

/-- `next(item for item in data if item.get('type') == t)`: first entry whose
`type` field equals `t`; the escaping `StopIteration` is `missingDevice t`,
and an error from `item.get` propagates. -/
def findFirst (t : String) : List JValue → Except PErr JValue
  | [] => .error (.missingDevice t)
  | v :: vs =>
    match jget v "type" with
    | .error e => .error e
    | .ok ty => if jeqStr ty t then .ok v else findFirst t vs

/-- The subexpression `e.get("devices")[0]`. -/
def firstDevice (e : JValue) : Except PErr JValue := do
  let devs ← jget e "devices"
  jindex0 devs

/-- The subexpression `e.get("devices")[0].get("mains_oper_state")`. -/
def mainsOperState (e : JValue) : Except PErr JValue := do
  let d0 ← firstDevice e
  jget d0 "mains_oper_state"

/-- The dict returned by `process_ensemble_inventory` (the spec's
`InventorySummary`).  `battery_level` is the float average, modelled as a
rational (the division is exact for the integer inputs in scope). -/
structure InventorySummary where
  grid_status : String
  battery_levels : List Int
  battery_level : Rat
deriving DecidableEq, Repr

/-- The loop body `int(device.get("percentFull"))`. -/
def readBattery (device : JValue) : Except PErr Int := do
  let pf ← jget device "percentFull"
  pyInt pf

/-- The loop `for device in ...: battery_levels.append(int(device.get("percentFull")))`:
levels in device order, first failure propagating. -/
def readBatteries : List JValue → Except PErr (List Int)
  | [] => .ok []
  | d :: ds => do
    let n ← readBattery d
    let rest ← readBatteries ds
    .ok (n :: rest)

/-- `process_ensemble_inventory(data)` from `__main__.py`: grid status from
the first `ENPOWER` entry's first device, battery levels from every device of
the first `ENCHARGE` entry, and their mean (`ZeroDivisionError`, i.e.
`noBatteries`, when the level list is empty). -/
def process_ensemble_inventory (data : List JValue) : Except PErr InventorySummary := do
  let enpower ← findFirst "ENPOWER" data
  let ms ← mainsOperState enpower
  let grid_status := if jeqStr ms "closed" then "UP" else "DOWN"
  let encharge ← findFirst "ENCHARGE" data
  let devs ← jget encharge "devices"
  let devices ← pyIter devs
  let battery_levels ← readBatteries devices
  if battery_levels.length = 0 then
    .error .noBatteries
  else
    .ok { grid_status := grid_status
          battery_levels := battery_levels
          battery_level := (battery_levels.sum : Rat) / (battery_levels.length : Rat) }

/-- An entry "has type `t`" when it is a dict whose `type` field equals the
string `t` (the condition of the generator expressions in
`process_ensemble_inventory`). -/
def hasType (v : JValue) (t : String) : Bool :=
  match jget v "type" with
  | .ok ty => jeqStr ty t
  | .error _ => false

/-- Whether a JSON value is a dict. -/
def isObj (v : JValue) : Bool :=
  match v with
  | .obj _ => true
  | _ => false

/-- Errors raised by the `Enphase` class and the polling loop. -/
inductive EErr where
  | tokenFormat (field : String)
  | missingTokenField
  | configMissing
  | missingCredentials
  | attributeError
  | processError (e : PErr)
deriving DecidableEq, Repr

/-- The frozen `EnphaseToken` dataclass: all three fields are strings, as
declared (`token`, `generation_time`, `expires_at`). -/
structure EnphaseToken where
  token : String
  generation_time : String
  expires_at : String
deriving DecidableEq, Repr

/-- `EnphaseToken.start`: `int(generation_time)` as an epoch second;
conversion failure raises (the spec's `TokenFormatError`).
`datetime.fromtimestamp` is modelled as the identity on unbounded epoch
seconds, so comparisons on the resulting datetimes are integer comparisons. -/
def EnphaseToken.start (t : EnphaseToken) : Except EErr Int :=
  match pyStrToInt? t.generation_time with
  | some n => .ok n
  | none => .error (.tokenFormat "generation_time")

/-- `EnphaseToken.end`: `int(expires_at)` as an epoch second. -/
def EnphaseToken.stop (t : EnphaseToken) : Except EErr Int :=
  match pyStrToInt? t.expires_at with
  | some n => .ok n
  | none => .error (.tokenFormat "expires_at")

/-- `EnphaseToken.is_valid`, with `datetime.now()` passed explicitly as
`now` (epoch seconds): after a truthiness guard on `generation_time` and
`expires_at` (a string is truthy iff nonempty), the chained comparison
`self.start <= datetime.now() <= self.end`. -/
def EnphaseToken.is_valid (t : EnphaseToken) (now : Int) : Except EErr Bool :=
  if t.generation_time = "" ∨ t.expires_at = "" then
    .error .missingTokenField
  else do
    let s ← t.start
    let e ← t.stop
    .ok (decide (s ≤ now) && decide (now ≤ e))

/-- The `EnphaseConfig` dataclass. -/
structure EnphaseConfig where
  username : String
  password : String
  serial : String
  envoy : String
  site_id : String
deriving DecidableEq, Repr

/-- The mutable `Enphase` dataclass.  The cached `requests.Session` handle is
opaque; it is modelled by the numeric identity of the session object. -/
structure Enphase where
  envoy_ssl_verify : Bool := true
  config : Option EnphaseConfig := none
  tok : Option EnphaseToken := none
  envoy_session : Option Nat := none
deriving DecidableEq, Repr

/-- Externally observable calls made by the code: `login` is the two-request
cloud login plus token fetch in `get_new_token`, `sessionCheck` is the
`GET /auth/check_jwt` in `create_envoy_session`, `fetchInventory` is the
`GET /ivp/ensemble/inventory`, and `breakerAction` is the breaker-control
invocation in `poll_enphase` (currently the stub print). -/
inductive Event where
  | login
  | sessionCheck
  | fetchInventory
  | breakerAction
deriving DecidableEq, Repr

/-- The world outside the `Enphase` object: the `enphase.config` file
(modelled structurally; the JSON wrapping of `save`/`load` is a fixed
two-field object and round-trips these records), the token the cloud would
issue on the next login, the inventory the gateway would return, a supply of
fresh session identities, and the trace of observable calls.  Transport-level
failures are out of scope: the network oracles always answer. -/
structure World where
  file : Option (EnphaseConfig × EnphaseToken)
  cloudToken : EnphaseToken
  inventory : List JValue
  nextSessionId : Nat
  events : List Event

/-- `Enphase.get_new_token`: guard (all three of username, password, serial
falsy raises), then the login POST and the token GET (one `login` event),
storing the token the cloud returns.  On an error the mutated object and the
side effects so far survive, so every operation returns the object and world
alongside the `Except` result. -/
def Enphase.get_new_token (e : Enphase) (w : World) :
    Enphase × World × Except EErr EnphaseToken :=
  match e.config with
  | none => (e, w, .error .attributeError)
  | some cfg =>
    if cfg.username = "" ∧ cfg.password = "" ∧ cfg.serial = "" then
      (e, w, .error .missingCredentials)
    else
      let t := w.cloudToken
      ({ e with tok := some t },
       { w with events := w.events ++ [.login] },
       .ok t)

/-- `Enphase.save`: writes `config` and `token` to `enphase.config`;
accessing `__dict__` of a `None` config or token raises. -/
def Enphase.save (e : Enphase) (w : World) :
    Enphase × World × Except EErr Unit :=
  match e.config, e.tok with
  | some cfg, some t => (e, { w with file := some (cfg, t) }, .ok ())
  | _, _ => (e, w, .error .attributeError)

/-- `Enphase.load`, with `datetime.now()` (used inside `is_valid`) passed as
`now`: read `enphase.config` (missing file raises), install config and token
on the object, then — still inside `load` — if the stored token is not valid
get a new token and save. -/
def Enphase.load (e : Enphase) (w : World) (now : Int) :
    Enphase × World × Except EErr Unit :=
  match w.file with
  | none => (e, w, .error .configMissing)
  | some (cfg, t) =>
    let e := { e with config := some cfg, tok := some t }
    match t.is_valid now with
    | .error err => (e, w, .error err)
    | .ok true => (e, w, .ok ())
    | .ok false =>
      match e.get_new_token w with
      | (e, w, .error err) => (e, w, .error err)
      | (e, w, .ok _) =>
        match e.save w with
        | (e, w, .error err) => (e, w, .error err)
        | (e, w, .ok _) => (e, w, .ok ())

/-- `Enphase.create_envoy_session`: a cached session is returned as is, with
no check of any kind; otherwise the bearer-token `GET /auth/check_jwt` is
issued (one `sessionCheck` event; the response status is ignored by the
code) and the fresh session is cached.  Building the URL reads
`self._config.envoy` and the header reads `self._token.value`, so a `None`
config or token raises before any network traffic. -/
def Enphase.create_envoy_session (e : Enphase) (w : World) :
    Enphase × World × Except EErr Nat :=
  match e.envoy_session with
  | some sid => (e, w, .ok sid)
  | none =>
    match e.config, e.tok with
    | some _, some _ =>
      let sid := w.nextSessionId
      ({ e with envoy_session := some sid },
       { w with nextSessionId := sid + 1, events := w.events ++ [.sessionCheck] },
       .ok sid)
    | _, _ => (e, w, .error .attributeError)

/-- `Enphase.ivp_ensemble_inventory`: ensure a session, then
`GET /ivp/ensemble/inventory` (one `fetchInventory` event) and parse the
body, modelled as the world's inventory oracle.  The URL again reads
`self._config.envoy`, so a `None` config raises even when a session is
cached. -/
def Enphase.ivp_ensemble_inventory (e : Enphase) (w : World) :
    Enphase × World × Except EErr (List JValue) :=
  match e.create_envoy_session w with
  | (e, w, .error err) => (e, w, .error err)
  | (e, w, .ok _) =>
    match e.config with
    | none => (e, w, .error .attributeError)
    | some _ =>
      (e, { w with events := w.events ++ [.fetchInventory] }, .ok w.inventory)

/-- `poll_enphase` from `__main__.py`: fetch the raw inventory, reduce it,
print the summary, and when the grid status is `DOWN` invoke the breaker
action (one `breakerAction` event).  There is no exception handler: any
error propagates to the caller. -/
def poll_enphase (e : Enphase) (w : World) :
    Enphase × World × Except EErr Unit :=
  match e.ivp_ensemble_inventory w with
  | (e, w, .error err) => (e, w, .error err)
  | (e, w, .ok raw) =>
    match process_ensemble_inventory raw with
    | .error perr => (e, w, .error (.processError perr))
    | .ok s =>
      if s.grid_status = "DOWN" then
        (e, { w with events := w.events ++ [.breakerAction] }, .ok ())
      else
        (e, w, .ok ())

/-- The scheduler main loop of `__main__.py` run for `n` ticks: each tick
`schedule.run_pending` runs `poll_enphase`.  Neither the `schedule` library
nor the bare `while True: run_pending(); time.sleep(1)` loop catches job
exceptions, so an error in a cycle terminates the loop with that error and
no later tick runs. -/
def run_loop : Nat → Enphase → World → Enphase × World × Except EErr Unit
  | 0, e, w => (e, w, .ok ())
  | n + 1, e, w =>
    match poll_enphase e w with
    | (e, w, .error err) => (e, w, .error err)
    | (e, w, .ok _) => run_loop n e w

deriving instance DecidableEq for Except

/-- A concrete account configuration. -/
def cfg0 : EnphaseConfig :=
  { username := "user@example.com", password := "pw", serial := "123456789",
    envoy := "envoy.local", site_id := "42" }

/-- A token whose validity window is `[0, 5]` — expired at any `now > 5`. -/
def tokOld : EnphaseToken :=
  { token := "oldtok", generation_time := "0", expires_at := "5" }

/-- A token whose validity window is `[10, 1000]`. -/
def tokNew : EnphaseToken :=
  { token := "newtok", generation_time := "10", expires_at := "1000" }

/-- An `ENPOWER` entry whose first device reports the mains closed. -/
def enpowerClosed : JValue :=
  .obj [("type", .str "ENPOWER"),
        ("devices", .list [.obj [("mains_oper_state", .str "closed")]])]

/-- An `ENCHARGE` entry with two batteries at 80 and 60 percent. -/
def encharge8060 : JValue :=
  .obj [("type", .str "ENCHARGE"),
        ("devices", .list [.obj [("percentFull", .str "80")],
                           .obj [("percentFull", .str "60")]])]

/-- The spec's scenario inventory: grid closed, two batteries at 80 and 60. -/
def inventoryUp : List JValue := [enpowerClosed, encharge8060]

/-- An `ENCHARGE` entry with an empty device list. -/
def enchargeEmpty : JValue :=
  .obj [("type", .str "ENCHARGE"), ("devices", .list [])]

/-- An inventory with an `ENCHARGE` entry but no `ENPOWER` entry. -/
def enchargeOnly : List JValue :=
  [.obj [("type", .str "ENCHARGE"),
         ("devices", .list [.obj [("percentFull", .str "80")]])]]

/-- An inventory with an `ENPOWER` entry but no `ENCHARGE` entry. -/
def enpowerOnly : List JValue := [enpowerClosed]

/-- An inventory whose single battery reports 150 percent. -/
def inventory150 : List JValue :=
  [enpowerClosed,
   .obj [("type", .str "ENCHARGE"),
         ("devices", .list [.obj [("percentFull", .str "150")]])]]

/-- An entry of a type the reducer ignores. -/
def otherEntry : JValue := .obj [("type", .str "OTHER")]

/-- An `ENPOWER` entry agreeing with `enpowerClosed` on its first device but
carrying an extra second device. -/
def enpowerClosedTwo : JValue :=
  .obj [("type", .str "ENPOWER"),
        ("devices", .list [.obj [("mains_oper_state", .str "closed")],
                           .obj [("extra", .str "x")]])]

/-- A second `ENPOWER` entry whose first device reports the mains open; when
it occurs after another `ENPOWER` entry the reducer never looks at it. -/
def enpowerOpenExtra : JValue :=
  .obj [("type", .str "ENPOWER"),
        ("devices", .list [.obj [("mains_oper_state", .str "open")]])]

/-- An inventory agreeing with `inventoryUp` on the first `ENPOWER` entry's
first device and on the first `ENCHARGE` entry, but with a leading entry of
another type, an extra device on the `ENPOWER` entry, and a second
conflicting `ENPOWER` entry at the end. -/
def inventoryVariant : List JValue :=
  [otherEntry, enpowerClosedTwo, encharge8060, enpowerOpenExtra]

/-- A world holding a persisted expired token, a fresh token at the cloud and
the scenario inventory at the gateway. -/
def w0 : World :=
  { file := some (cfg0, tokOld), cloudToken := tokNew, inventory := inventoryUp,
    nextSessionId := 0, events := [] }

/-- An `Enphase` object as configured by `__main__` after `load`, holding the
expired token and no cached envoy session. -/
def e0 : Enphase :=
  { envoy_ssl_verify := false, config := some cfg0, tok := some tokOld,
    envoy_session := none }

/-- `w0` with a gateway that answers the inventory request with an empty
list. -/
def wEmpty : World := { w0 with inventory := [] }

/-- `e0` after its first envoy session has been created. -/
def e0s : Enphase := { e0 with envoy_session := some 0 }

/-- `wEmpty` after one session-check and one inventory fetch. -/
def wEmptyAfter : World :=
  { wEmpty with nextSessionId := 1,
                events := [Event.sessionCheck, Event.fetchInventory] }

/-- An object holding the fresh token, ready to `save`. -/
def eSaved : Enphase := { config := some cfg0, tok := some tokNew }

/-- An object holding the fresh token and no cached session. -/
def eFresh : Enphase := { config := some cfg0, tok := some tokNew }

/-- A world whose persisted token is still valid at `now = 50`. -/
def wValid : World := { w0 with file := some (cfg0, tokNew) }

theorem ebind_ok {ε α β : Type} (a : α) (f : α → Except ε β) :
    (Except.ok a >>= f) = f a := rfl

theorem ebind_error {ε α β : Type} (er : ε) (f : α → Except ε β) :
    ((Except.error er : Except ε α) >>= f) = Except.error er := rfl

theorem jeqStr_iff (v : JValue) (t : String) : jeqStr v t = true ↔ v = JValue.str t := by
  cases v <;> simp [jeqStr]

theorem readBatteries_mem {ds : List JValue} {ls : List Int}
    (h : readBatteries ds = .ok ls) :
    ∀ x ∈ ls, ∃ d ∈ ds, readBattery d = .ok x := by
  induction ds generalizing ls with
  | nil =>
    simp only [readBatteries] at h
    cases h
    simp
  | cons d ds ih =>
    simp only [readBatteries] at h
    cases hd : readBattery d with
    | error er => rw [hd, ebind_error] at h; cases h
    | ok n =>
      rw [hd, ebind_ok] at h
      cases hr : readBatteries ds with
      | error er => rw [hr, ebind_error] at h; cases h
      | ok rest =>
        rw [hr, ebind_ok] at h
        cases h
        intro x hx
        rcases List.mem_cons.1 hx with rfl | hx
        · exact ⟨d, List.mem_cons_self d ds, hd⟩
        · obtain ⟨d2, hd2, hd2x⟩ := ih hr x hx
          exact ⟨d2, List.mem_cons_of_mem d hd2, hd2x⟩

theorem findFirst_not_found {data : List JValue} {t : String}
    (hobj : ∀ v ∈ data, isObj v = true)
    (hty : ∀ v ∈ data, hasType v t = false) :
    findFirst t data = .error (.missingDevice t) := by
  induction data with
  | nil => rfl
  | cons v vs ih =>
    have hv : isObj v = true := hobj v (List.mem_cons_self v vs)
    have hvt : hasType v t = false := hty v (List.mem_cons_self v vs)
    have ihv : findFirst t vs = Except.error (.missingDevice t) :=
      ih (fun x hx => hobj x (List.mem_cons_of_mem v hx))
        (fun x hx => hty x (List.mem_cons_of_mem v hx))
    cases v with
    | obj kvs =>
      cases hl : List.lookup "type" kvs with
      | none =>
        simp only [hasType, jget, hl] at hvt
        simp [findFirst, jget, hl, hvt, ihv]
      | some ty =>
        simp only [hasType, jget, hl] at hvt
        simp [findFirst, jget, hl, hvt, ihv]
    | null => simp [isObj] at hv
    | bool b => simp [isObj] at hv
    | num n => simp [isObj] at hv
    | str s => simp [isObj] at hv
    | list xs => simp [isObj] at hv

theorem process_inventoryUp_eval :
    process_ensemble_inventory inventoryUp =
      .ok { grid_status := "UP", battery_levels := [80, 60], battery_level := 70 } := by
  have h : process_ensemble_inventory inventoryUp =
      .ok { grid_status := "UP", battery_levels := [80, 60],
            battery_level := ((140 : Int) : Rat) / ((2 : Nat) : Rat) } := rfl
  rw [h]
  norm_num

/-- C3: `reduce` applied to the scenario inventory
`[ENPOWER closed, ENCHARGE 80/60]` yields grid `UP`, levels `[80, 60]` and
average `70`; and in general, on any successful reduction, the grid status is
`UP` exactly when the first `ENPOWER` entry's first device has
`mains_oper_state` equal to the literal string `closed`, and `DOWN`
otherwise. -/
theorem reduce_grid_status_correct :
    process_ensemble_inventory inventoryUp =
      .ok { grid_status := "UP", battery_levels := [80, 60], battery_level := 70 } ∧
    ∀ (data : List JValue) (s : InventorySummary),
      process_ensemble_inventory data = .ok s →
      (s.grid_status = "UP" ∨ s.grid_status = "DOWN") ∧
      (s.grid_status = "UP" ↔
        ∃ e, findFirst "ENPOWER" data = .ok e ∧
          mainsOperState e = .ok (.str "closed")) := by
  constructor
  · exact process_inventoryUp_eval
  · intro data s hs
    unfold process_ensemble_inventory at hs
    cases h1 : findFirst "ENPOWER" data with
    | error er => rw [h1, ebind_error] at hs; cases hs
    | ok enp =>
      simp only [h1, ebind_ok] at hs
      cases h2 : mainsOperState enp with
      | error er => rw [h2, ebind_error] at hs; cases hs
      | ok ms =>
        simp only [h2, ebind_ok] at hs
        cases h3 : findFirst "ENCHARGE" data with
        | error er => rw [h3, ebind_error] at hs; cases hs
        | ok enc =>
          simp only [h3, ebind_ok] at hs
          cases h4 : jget enc "devices" with
          | error er => rw [h4, ebind_error] at hs; cases hs
          | ok devs =>
            simp only [h4, ebind_ok] at hs
            cases h5 : pyIter devs with
            | error er => rw [h5, ebind_error] at hs; cases hs
            | ok devices =>
              simp only [h5, ebind_ok] at hs
              cases h6 : readBatteries devices with
              | error er => rw [h6, ebind_error] at hs; cases hs
              | ok ls =>
                simp only [h6, ebind_ok] at hs
                split at hs
                · cases hs
                · cases hs
                  cases hms : jeqStr ms "closed" with
                  | true =>
                    have hms2 := (jeqStr_iff ms "closed").1 hms
                    subst hms2
                    refine ⟨Or.inl (by simp), ?_, ?_⟩
                    · intro _
                      exact ⟨enp, rfl, h2⟩
                    · intro _
                      simp
                  | false =>
                    refine ⟨Or.inr (by simp), ?_, ?_⟩
                    · intro hup
                      simp at hup
                    · rintro ⟨e, he, hme⟩
                      cases he
                      rw [h2] at hme
                      cases hme
                      simp [jeqStr] at hms

/-- Witness for C3: the general grid-status characterisation instantiated at
the scenario inventory and its computed summary. -/
theorem reduce_grid_status_correct_witness :
    ("UP" = "UP" ∨ "UP" = "DOWN") ∧
    ("UP" = "UP" ↔
      ∃ e, findFirst "ENPOWER" inventoryUp = .ok e ∧
        mainsOperState e = .ok (.str "closed")) :=
  reduce_grid_status_correct.2 inventoryUp
    { grid_status := "UP", battery_levels := [80, 60], battery_level := 70 }
    reduce_grid_status_correct.1

/-- C5 counterexample: the empty inventory has no `ENCHARGE` entry, yet
`reduce` fails with `MissingDevice("ENPOWER")`, not `MissingDevice("ENCHARGE")`
— the `ENPOWER` lookup runs first, so the claim's second case does not hold
unconditionally. -/
theorem reduce_missing_encharge_counterexample :
    (∀ v ∈ ([] : List JValue), hasType v "ENCHARGE" = false) ∧
    process_ensemble_inventory [] = .error (.missingDevice "ENPOWER") ∧
    (Except.error (.missingDevice "ENPOWER") : Except PErr InventorySummary) ≠
      .error (.missingDevice "ENCHARGE") := by
  refine ⟨by simp, rfl, by decide⟩

/-- C5 amended: the degenerate-input errors with the code's evaluation order
made explicit — `MissingDevice("ENPOWER")` when no (dict) entry has type
`ENPOWER`; `MissingDevice("ENCHARGE")` when the `ENPOWER` entry is found and
its grid-status read succeeds but no entry has type `ENCHARGE`; `NoBatteries`
when additionally the `ENCHARGE` entry is found and its device list is
empty. -/
theorem reduce_degenerate_errors_amended :
    (∀ data : List JValue, (∀ v ∈ data, isObj v = true) →
      (∀ v ∈ data, hasType v "ENPOWER" = false) →
      process_ensemble_inventory data = .error (.missingDevice "ENPOWER")) ∧
    (∀ (data : List JValue) (e ms : JValue), (∀ v ∈ data, isObj v = true) →
      findFirst "ENPOWER" data = .ok e → mainsOperState e = .ok ms →
      (∀ v ∈ data, hasType v "ENCHARGE" = false) →
      process_ensemble_inventory data = .error (.missingDevice "ENCHARGE")) ∧
    (∀ (data : List JValue) (e ms c : JValue),
      findFirst "ENPOWER" data = .ok e → mainsOperState e = .ok ms →
      findFirst "ENCHARGE" data = .ok c → jget c "devices" = .ok (.list []) →
      process_ensemble_inventory data = .error .noBatteries) := by
  refine ⟨?_, ?_, ?_⟩
  · intro data hobj hty
    unfold process_ensemble_inventory
    rw [findFirst_not_found hobj hty, ebind_error]
  · intro data e ms hobj h1 h2 hty
    unfold process_ensemble_inventory
    simp only [h1, ebind_ok, h2, findFirst_not_found hobj hty, ebind_error]
  · intro data e ms c h1 h2 h3 h4
    unfold process_ensemble_inventory
    simp only [h1, ebind_ok, h2, h3, h4, pyIter, readBatteries, List.length_nil,
      ebind_error]
    rfl

/-- Witness for C5 (amended): each degenerate case exercised on a concrete
inventory. -/
theorem reduce_degenerate_errors_witness :
    process_ensemble_inventory enchargeOnly = .error (.missingDevice "ENPOWER") ∧
    process_ensemble_inventory enpowerOnly = .error (.missingDevice "ENCHARGE") ∧
    process_ensemble_inventory [enpowerClosed, enchargeEmpty] = .error .noBatteries :=
  ⟨reduce_degenerate_errors_amended.1 enchargeOnly (by decide) (by decide),
   reduce_degenerate_errors_amended.2.1 enpowerOnly enpowerClosed (.str "closed")
     (by decide) rfl rfl (by decide),
   reduce_degenerate_errors_amended.2.2 [enpowerClosed, enchargeEmpty]
     enpowerClosed (.str "closed") enchargeEmpty rfl rfl rfl rfl⟩

/-- C9 counterexample: a device reporting `percentFull = "150"` is passed
through unclamped, so a produced summary can hold a battery level outside
`[0, 100]`. -/
theorem battery_levels_range_counterexample :
    Except.map InventorySummary.battery_levels
      (process_ensemble_inventory inventory150) = .ok [150] ∧
    ¬ (∀ x ∈ [(150 : Int)], 0 ≤ x ∧ x ≤ 100) := by
  refine ⟨rfl, by decide⟩

/-- C9 amended: the reducer performs no range check of its own — every
produced battery level is the parsed `percentFull` of a device of the first
`ENCHARGE` entry, so the levels lie in `[0, 100]` exactly when the parsed
device readings do. -/
theorem battery_levels_range_amended :
    ∀ (data : List JValue) (s : InventorySummary) (c : JValue) (ds : List JValue),
      process_ensemble_inventory data = .ok s →
      findFirst "ENCHARGE" data = .ok c →
      jget c "devices" = .ok (.list ds) →
      (∀ d ∈ ds, ∀ n : Int, readBattery d = .ok n → 0 ≤ n ∧ n ≤ 100) →
      ∀ x ∈ s.battery_levels, 0 ≤ x ∧ x ≤ 100 := by
  intro data s c ds hs hc hdev hbound
  unfold process_ensemble_inventory at hs
  cases h1 : findFirst "ENPOWER" data with
  | error er => rw [h1, ebind_error] at hs; cases hs
  | ok enp =>
    simp only [h1, ebind_ok] at hs
    cases h2 : mainsOperState enp with
    | error er => rw [h2, ebind_error] at hs; cases hs
    | ok ms =>
      simp only [h2, ebind_ok, hc, hdev, pyIter] at hs
      cases hb : readBatteries ds with
      | error er => rw [hb, ebind_error] at hs; cases hs
      | ok ls =>
        simp only [hb, ebind_ok] at hs
        split at hs
        · cases hs
        · cases hs
          intro x hx
          obtain ⟨d, hd, hread⟩ := readBatteries_mem hb x hx
          exact hbound d hd x hread

/-- Witness for C9 (amended): on the scenario inventory all parsed readings
lie in `[0, 100]`, hence both produced levels do. -/
theorem battery_levels_range_witness :
    (0 ≤ (80 : Int) ∧ (80 : Int) ≤ 100) ∧ (0 ≤ (60 : Int) ∧ (60 : Int) ≤ 100) := by
  have h := battery_levels_range_amended inventoryUp
    { grid_status := "UP", battery_levels := [80, 60], battery_level := 70 }
    encharge8060
    [.obj [("percentFull", .str "80")], .obj [("percentFull", .str "60")]]
    process_inventoryUp_eval rfl rfl
    (by
      intro d hd n h
      rcases List.mem_cons.1 hd with rfl | hd2
      · have h2 : (Except.ok (80 : Int) : Except PErr Int) = .ok n := h
        cases h2
        exact ⟨by decide, by decide⟩
      · rcases List.mem_singleton.1 hd2 with rfl
        have h2 : (Except.ok (60 : Int) : Except PErr Int) = .ok n := h
        cases h2
        exact ⟨by decide, by decide⟩)
  exact ⟨h 80 (by simp), h 60 (by simp)⟩

/-- C10: the reducer's result depends only on the first `ENPOWER` entry's
first device and on the first `ENCHARGE` entry — two inventories agreeing on
those produce identical results, whatever other entries they contain. -/
theorem reduce_depends_on_two_entries :
    ∀ (d1 d2 : List JValue) (e1 e2 c : JValue),
      findFirst "ENPOWER" d1 = .ok e1 →
      findFirst "ENPOWER" d2 = .ok e2 →
      firstDevice e1 = firstDevice e2 →
      findFirst "ENCHARGE" d1 = .ok c →
      findFirst "ENCHARGE" d2 = .ok c →
      process_ensemble_inventory d1 = process_ensemble_inventory d2 := by
  intro d1 d2 e1 e2 c h1 h2 hdev h3 h4
  have hms : mainsOperState e1 = mainsOperState e2 := by
    unfold mainsOperState
    rw [hdev]
  unfold process_ensemble_inventory
  rw [h1, h2, ebind_ok, ebind_ok]
  simp only [h3, h4]
  rw [hms]

/-- Witness for C10: the scenario inventory against a variant with an ignored
leading entry, an extra device on the `ENPOWER` entry and a conflicting
second `ENPOWER` entry. -/
theorem reduce_depends_on_two_entries_witness :
    process_ensemble_inventory inventoryUp =
      process_ensemble_inventory inventoryVariant :=
  reduce_depends_on_two_entries inventoryUp inventoryVariant
    enpowerClosed enpowerClosedTwo encharge8060 rfl rfl rfl rfl rfl

theorem pyStrToInt?_nonempty {x : String} {n : Int}
    (h : pyStrToInt? x = some n) : x ≠ "" := by
  intro he
  subst he
  rw [show pyStrToInt? "" = none from rfl] at h
  cases h

/-- C4: for a well-formed token (nonempty token value, integer-parseable
`generation_time` and `expires_at`), `is_valid` never raises and returns
exactly the boundary-inclusive range check `issuedAt ≤ now ≤ expiresAt`. -/
theorem is_valid_range_check :
    ∀ (t : EnphaseToken) (now s e : Int),
      t.token ≠ "" →
      pyStrToInt? t.generation_time = some s →
      pyStrToInt? t.expires_at = some e →
      t.is_valid now = .ok (decide (s ≤ now ∧ now ≤ e)) ∧
      (t.is_valid now = .ok true ↔ (s ≤ now ∧ now ≤ e)) := by
  intro t now s e _ hg he
  have hg0 : t.generation_time ≠ "" := pyStrToInt?_nonempty hg
  have he0 : t.expires_at ≠ "" := pyStrToInt?_nonempty he
  have hst : t.start = Except.ok s := by
    unfold EnphaseToken.start
    rw [hg]
  have hsp : t.stop = Except.ok e := by
    unfold EnphaseToken.stop
    rw [he]
  have hval : t.is_valid now = .ok (decide (s ≤ now) && decide (now ≤ e)) := by
    unfold EnphaseToken.is_valid
    rw [if_neg (by simp [hg0, he0])]
    simp only [hst, hsp, ebind_ok]
  constructor
  · rw [Bool.decide_and]
    exact hval
  · rw [hval]
    simp

/-- Witness for C4: the fresh token at `now = 50` inside its window. -/
theorem is_valid_range_check_witness :
    tokNew.is_valid 50 = .ok (decide ((10 : Int) ≤ 50 ∧ (50 : Int) ≤ 1000)) ∧
    (tokNew.is_valid 50 = .ok true ↔ ((10 : Int) ≤ 50 ∧ (50 : Int) ≤ 1000)) :=
  is_valid_range_check tokNew 50 10 1000 (by decide) rfl rfl

theorem create_envoy_session_events (e : Enphase) (w : World) :
    ∃ δ, (e.create_envoy_session w).2.1.events = w.events ++ δ ∧
      ∀ ev ∈ δ, ev = Event.sessionCheck := by
  cases hs : e.envoy_session with
  | some sid =>
    refine ⟨[], ?_, by simp⟩
    simp [Enphase.create_envoy_session, hs]
  | none =>
    cases hc : e.config with
    | none =>
      cases ht : e.tok with
      | none =>
        refine ⟨[], ?_, by simp⟩
        simp [Enphase.create_envoy_session, hs, hc, ht]
      | some t =>
        refine ⟨[], ?_, by simp⟩
        simp [Enphase.create_envoy_session, hs, hc, ht]
    | some cfg =>
      cases ht : e.tok with
      | none =>
        refine ⟨[], ?_, by simp⟩
        simp [Enphase.create_envoy_session, hs, hc, ht]
      | some t =>
        refine ⟨[Event.sessionCheck], ?_, by simp⟩
        simp [Enphase.create_envoy_session, hs, hc, ht]

theorem ivp_ensemble_inventory_events (e : Enphase) (w : World) :
    ∃ δ, (e.ivp_ensemble_inventory w).2.1.events = w.events ++ δ ∧
      ∀ ev ∈ δ, ev = Event.sessionCheck ∨ ev = Event.fetchInventory := by
  obtain ⟨δ, hδ, hall⟩ := create_envoy_session_events e w
  cases hcr : e.create_envoy_session w with
  | mk e1 q =>
    cases q with
    | mk w1 r =>
      simp only [hcr] at hδ
      unfold Enphase.ivp_ensemble_inventory
      simp only [hcr]
      cases r with
      | error err =>
        exact ⟨δ, hδ, fun ev hev => Or.inl (hall ev hev)⟩
      | ok sid =>
        cases hc : e1.config with
        | none =>
          simp only [hc]
          exact ⟨δ, hδ, fun ev hev => Or.inl (hall ev hev)⟩
        | some cfg =>
          simp only [hc]
          refine ⟨δ ++ [Event.fetchInventory], ?_, ?_⟩
          · simp [hδ]
          · intro ev hev
            rcases List.mem_append.1 hev with h | h
            · exact Or.inl (hall ev h)
            · rcases List.mem_singleton.1 h with rfl
              exact Or.inr rfl

theorem poll_enphase_events (e : Enphase) (w : World) :
    ∃ δ, (poll_enphase e w).2.1.events = w.events ++ δ ∧
      (∀ ev ∈ δ, ev ≠ Event.login) ∧
      (∀ err, (poll_enphase e w).2.2 = .error err → Event.breakerAction ∉ δ) := by
  obtain ⟨δ, hδ, hall⟩ := ivp_ensemble_inventory_events e w
  cases hiv : e.ivp_ensemble_inventory w with
  | mk e1 q =>
    cases q with
    | mk w1 r =>
      simp only [hiv] at hδ
      unfold poll_enphase
      simp only [hiv]
      cases r with
      | error err =>
        refine ⟨δ, hδ, ?_, ?_⟩
        · intro ev hev
          rcases hall ev hev with h | h <;> simp [h]
        · intro _ _ hmem
          rcases hall _ hmem with h | h <;> cases h
      | ok raw =>
        cases hp : process_ensemble_inventory raw with
        | error perr =>
          simp only [hp]
          refine ⟨δ, hδ, ?_, ?_⟩
          · intro ev hev
            rcases hall ev hev with h | h <;> simp [h]
          · intro _ _ hmem
            rcases hall _ hmem with h | h <;> cases h
        | ok s =>
          simp only [hp]
          by_cases hg : s.grid_status = "DOWN"
          · rw [if_pos hg]
            refine ⟨δ ++ [Event.breakerAction], ?_, ?_, ?_⟩
            · simp [hδ]
            · intro ev hev
              rcases List.mem_append.1 hev with h | h
              · rcases hall ev h with h2 | h2 <;> simp [h2]
              · rcases List.mem_singleton.1 h with rfl
                simp
            · intro err herr
              cases herr
          · rw [if_neg hg]
            refine ⟨δ, hδ, ?_, ?_⟩
            · intro ev hev
              rcases hall ev hev with h | h <;> simp [h]
            · intro err herr
              cases herr

/-- C1 amended: a poll cycle never performs a login — even when the current
token is expired, the gateway calls proceed with the stale credentials.
Token renewal happens only inside `load`: `load` performs no gateway call,
and when the persisted token is invalid at load time and `load` succeeds it
has performed a login. -/
theorem poll_cycle_no_relogin_amended :
    (∀ (e : Enphase) (w : World),
      Event.login ∈ (poll_enphase e w).2.1.events → Event.login ∈ w.events) ∧
    (∀ (e : Enphase) (w : World) (now : Int),
      ((Event.sessionCheck ∈ (e.load w now).2.1.events →
          Event.sessionCheck ∈ w.events) ∧
       (Event.fetchInventory ∈ (e.load w now).2.1.events →
          Event.fetchInventory ∈ w.events)) ∧
      ∀ (cfg : EnphaseConfig) (t : EnphaseToken),
        w.file = some (cfg, t) → t.is_valid now = .ok false →
        (e.load w now).2.2 = .ok () →
        Event.login ∈ (e.load w now).2.1.events) := by
  constructor
  · intro e w hm
    obtain ⟨δ, hδ, hlog, _⟩ := poll_enphase_events e w
    rw [hδ] at hm
    rcases List.mem_append.1 hm with h | h
    · exact h
    · exact absurd rfl (hlog _ h)
  · intro e w now
    constructor
    · cases hf : w.file with
      | none =>
        constructor <;>
          · intro hm
            simpa [Enphase.load, hf] using hm
      | some p =>
        cases p with
        | mk cfg t =>
          cases hv : t.is_valid now with
          | error er =>
            constructor <;>
              · intro hm
                simpa [Enphase.load, hf, hv] using hm
          | ok b =>
            cases b with
            | true =>
              constructor <;>
                · intro hm
                  simpa [Enphase.load, hf, hv] using hm
            | false =>
              by_cases hcred : cfg.username = "" ∧ cfg.password = "" ∧ cfg.serial = ""
              · constructor <;>
                  · intro hm
                    simpa [Enphase.load, hf, hv, Enphase.get_new_token, hcred] using hm
              · constructor <;>
                  · intro hm
                    simp only [Enphase.load, hf, hv, Enphase.get_new_token,
                      Enphase.save, if_neg hcred] at hm
                    simpa using hm
    · intro cfg t hf hv hok
      by_cases hcred : cfg.username = "" ∧ cfg.password = "" ∧ cfg.serial = ""
      · simp [Enphase.load, hf, hv, Enphase.get_new_token, hcred] at hok
      · simp [Enphase.load, hf, hv, Enphase.get_new_token, Enphase.save,
          if_neg hcred]

/-- Witness for C1 (amended): loading the expired persisted token at
`now = 50` performs the login. -/
theorem poll_cycle_no_relogin_witness :
    Event.login ∈ (Enphase.load {} w0 50).2.1.events :=
  (poll_cycle_no_relogin_amended.2 {} w0 50).2 cfg0 tokOld rfl rfl rfl

/-- C1 counterexample: with the persisted token expired (`expiresAt = 5`,
`now = 10`) the next poll cycle checks the session and fetches the inventory
without ever logging in — no cycle renews the token. -/
theorem poll_cycle_relogin_counterexample :
    tokOld.is_valid 10 = .ok false ∧
    e0.tok = some tokOld ∧
    (poll_enphase e0 w0).2.1.events = [Event.sessionCheck, Event.fetchInventory] ∧
    Event.login ∉ (poll_enphase e0 w0).2.1.events := by
  decide

/-- C2 amended: an error raised in steps 1–4 of a cycle is not caught — the
breaker action is not invoked in that cycle, but the exception propagates out
of `run_pending` and terminates the scheduler loop, so no later tick runs. -/
theorem cycle_error_terminates_loop_amended :
    ∀ (n : Nat) (e e1 : Enphase) (w w1 : World) (err : EErr),
      poll_enphase e w = (e1, w1, .error err) →
      run_loop (n + 1) e w = (e1, w1, .error err) ∧
      ∃ δ, w1.events = w.events ++ δ ∧ Event.breakerAction ∉ δ := by
  intro n e e1 w w1 err hpoll
  constructor
  · unfold run_loop
    rw [hpoll]
  · obtain ⟨δ, hδ, _, hbrk⟩ := poll_enphase_events e w
    rw [hpoll] at hδ
    exact ⟨δ, hδ, hbrk err (by rw [hpoll])⟩

/-- Witness for C2 (amended): the empty-inventory cycle error stops the loop
after one tick. -/
theorem cycle_error_terminates_loop_witness :
    run_loop 1 e0 wEmpty =
      (e0s, wEmptyAfter, .error (.processError (.missingDevice "ENPOWER"))) ∧
    ∃ δ, wEmptyAfter.events = wEmpty.events ++ δ ∧ Event.breakerAction ∉ δ :=
  cycle_error_terminates_loop_amended 0 e0 e0s wEmpty wEmptyAfter
    (.processError (.missingDevice "ENPOWER")) rfl

/-- C2 counterexample: a reduction error in the first cycle is not caught —
the two-tick loop ends with that error instead of reaching the second tick
(and no breaker action was invoked). -/
theorem cycle_error_not_caught_counterexample :
    (run_loop 2 e0 wEmpty).2.2 =
      .error (.processError (.missingDevice "ENPOWER")) ∧
    Event.breakerAction ∉ (run_loop 2 e0 wEmpty).2.1.events := by
  decide

/-- C6 amended: `save` followed by `load` returns the saved configuration and
token unchanged provided the saved token is still valid at load time; when it
is not, `load` itself replaces the token by a freshly fetched one. -/
theorem save_load_roundtrip_amended :
    ∀ (e e2 : Enphase) (w : World) (cfg : EnphaseConfig) (t : EnphaseToken)
      (now : Int),
      e.config = some cfg → e.tok = some t → t.is_valid now = .ok true →
      (e.save w).2.2 = .ok () ∧
      (e2.load ((e.save w).2.1) now).2.2 = .ok () ∧
      (e2.load ((e.save w).2.1) now).1.config = some cfg ∧
      (e2.load ((e.save w).2.1) now).1.tok = some t := by
  intro e e2 w cfg t now hc ht hv
  unfold Enphase.save
  simp only [hc, ht]
  refine ⟨trivial, ?_, ?_, ?_⟩ <;> simp [Enphase.load, hv]

/-- Witness for C6 (amended): saving the valid fresh token and loading at
`now = 50` returns it. -/
theorem save_load_roundtrip_witness :
    (eSaved.save w0).2.2 = .ok () ∧
    (Enphase.load {} ((eSaved.save w0).2.1) 50).2.2 = .ok () ∧
    (Enphase.load {} ((eSaved.save w0).2.1) 50).1.config = some cfg0 ∧
    (Enphase.load {} ((eSaved.save w0).2.1) 50).1.tok = some tokNew :=
  save_load_roundtrip_amended eSaved {} w0 cfg0 tokNew 50 rfl rfl rfl

/-- C6 counterexample: saving the expired token and loading at `now = 50`
returns the cloud's fresh token, not the token that was saved. -/
theorem save_load_roundtrip_counterexample :
    (e0.save w0).2.2 = .ok () ∧
    (Enphase.load {} ((e0.save w0).2.1) 50).2.2 = .ok () ∧
    e0.tok = some tokOld ∧
    (Enphase.load {} ((e0.save w0).2.1) 50).1.tok = some tokNew ∧
    tokNew ≠ tokOld := by
  decide

theorem get_new_token_file (e : Enphase) (w : World) :
    (e.get_new_token w).2.1.file = w.file := by
  unfold Enphase.get_new_token
  cases hc : e.config with
  | none => rfl
  | some cfg =>
    by_cases hcred : cfg.username = "" ∧ cfg.password = "" ∧ cfg.serial = ""
    · simp [hcred]
    · simp [hcred]

theorem create_envoy_session_file (e : Enphase) (w : World) :
    (e.create_envoy_session w).2.1.file = w.file := by
  unfold Enphase.create_envoy_session
  cases hs : e.envoy_session with
  | some sid => rfl
  | none =>
    cases hc : e.config with
    | none => cases ht : e.tok <;> rfl
    | some cfg => cases ht : e.tok <;> rfl

theorem ivp_ensemble_inventory_file (e : Enphase) (w : World) :
    (e.ivp_ensemble_inventory w).2.1.file = w.file := by
  have h3 := create_envoy_session_file e w
  cases hcr : e.create_envoy_session w with
  | mk e1 q =>
    cases q with
    | mk w1 r =>
      simp only [hcr] at h3
      unfold Enphase.ivp_ensemble_inventory
      simp only [hcr]
      cases r with
      | error err => exact h3
      | ok sid =>
        cases hc : e1.config with
        | none => simp only [hc]; exact h3
        | some cfg => simp only [hc]; exact h3

theorem poll_enphase_file (e : Enphase) (w : World) :
    (poll_enphase e w).2.1.file = w.file := by
  have h4 := ivp_ensemble_inventory_file e w
  cases hiv : e.ivp_ensemble_inventory w with
  | mk e1 q =>
    cases q with
    | mk w1 r =>
      simp only [hiv] at h4
      unfold poll_enphase
      simp only [hiv]
      cases r with
      | error err => exact h4
      | ok raw =>
        cases hp : process_ensemble_inventory raw with
        | error perr => simp only [hp]; exact h4
        | ok s =>
          simp only [hp]
          split <;> exact h4

/-- C7 amended: the persisted store is changed only by `save`.  `load` leaves
the store untouched whenever the stored token is valid at load time — but
when it is invalid, `load` renews the token and saves, writing the store; no
other operation (token fetch, session creation, inventory fetch, poll cycle)
writes it. -/
theorem load_preserves_store_amended :
    (∀ (e : Enphase) (w : World) (now : Int) (cfg : EnphaseConfig)
       (t : EnphaseToken),
      w.file = some (cfg, t) → t.is_valid now = .ok true →
      (e.load w now).2.1.file = w.file) ∧
    (∀ (e : Enphase) (w : World), (e.get_new_token w).2.1.file = w.file) ∧
    (∀ (e : Enphase) (w : World), (e.create_envoy_session w).2.1.file = w.file) ∧
    (∀ (e : Enphase) (w : World),
      (e.ivp_ensemble_inventory w).2.1.file = w.file) ∧
    (∀ (e : Enphase) (w : World), (poll_enphase e w).2.1.file = w.file) := by
  refine ⟨?_, get_new_token_file, create_envoy_session_file,
    ivp_ensemble_inventory_file, poll_enphase_file⟩
  intro e w now cfg t hf hv
  simp [Enphase.load, hf, hv]

/-- Witness for C7 (amended): loading a still-valid persisted token leaves
the store unchanged. -/
theorem load_preserves_store_witness :
    (Enphase.load {} wValid 50).2.1.file = wValid.file :=
  load_preserves_store_amended.1 {} wValid 50 cfg0 tokNew rfl rfl

/-- C7 counterexample: `load` of an expired persisted token writes the store
— the persisted contents differ before and after the `load`. -/
theorem load_writes_store_counterexample :
    w0.file = some (cfg0, tokOld) ∧
    (Enphase.load {} w0 50).2.2 = .ok () ∧
    (Enphase.load {} w0 50).2.1.file = some (cfg0, tokNew) ∧
    some (cfg0, tokNew) ≠ w0.file := by
  decide

/-- C8: with no cached session, `create_envoy_session` performs exactly one
gateway call and caches the handle; an immediately following call performs no
network traffic and returns the same handle with the state unchanged (the
token's validity, assumed here as in the claim, is never consulted). -/
theorem ensure_session_cache_hit :
    ∀ (e : Enphase) (w : World) (cfg : EnphaseConfig) (t : EnphaseToken)
      (now : Int),
      e.config = some cfg → e.tok = some t → t.is_valid now = .ok true →
      e.envoy_session = none →
      (e.create_envoy_session w).2.1.events = w.events ++ [Event.sessionCheck] ∧
      (e.create_envoy_session w).2.2 = .ok w.nextSessionId ∧
      ((e.create_envoy_session w).1.create_envoy_session
          ((e.create_envoy_session w).2.1)) =
        ((e.create_envoy_session w).1, (e.create_envoy_session w).2.1,
         .ok w.nextSessionId) := by
  intro e w cfg t now hc ht _ hs
  unfold Enphase.create_envoy_session
  simp only [hs, hc, ht]
  exact ⟨trivial, trivial, trivial⟩

/-- Witness for C8: a fresh object with the valid token — one session check,
then a cache hit. -/
theorem ensure_session_cache_hit_witness :
    (eFresh.create_envoy_session w0).2.1.events =
      w0.events ++ [Event.sessionCheck] ∧
    (eFresh.create_envoy_session w0).2.2 = .ok w0.nextSessionId ∧
    ((eFresh.create_envoy_session w0).1.create_envoy_session
        ((eFresh.create_envoy_session w0).2.1)) =
      ((eFresh.create_envoy_session w0).1, (eFresh.create_envoy_session w0).2.1,
       .ok w0.nextSessionId) :=
  ensure_session_cache_hit eFresh w0 cfg0 tokNew 50 rfl rfl rfl rfl

end VCL
